import Mathlib

/-!
Verification of the ChallengeHub funding and payout subsystem.

This file shallowly embeds the repository code that the claims concern:

* the fee policy (lib/platform-fee.ts),
* the Whop webhook reconciler (src/app/api/webhooks/whop/route.ts,
  first/authoritative variant: metadata-based correlation,
  x-whop-signature header, timestamped signature scheme),
* the charge initiator (src/app/api/charge/route.ts POST and GET),
* the Stripe funding route (the route using BUYOUT_FEE_AMOUNT),
* challenge creation (src/app/api/challenges/route.ts POST),
* challenge deletion (src/app/api/challenges/[id]/submissions/route.ts
  third variant, DELETE),
* the payout trigger (src/lib/whop-payouts.ts).

JavaScript numbers that hold currency amounts are modelled as rationals.
External collaborators (the Prisma database, the Whop SDK, HMAC-SHA256,
JSON.parse, Date.now) are modelled as explicit state or as parameters:
each route is a pure function from its inputs and the database state to
a response and a new database state, and each awaited database write is
one observable commit point.
-/

namespace ChallengeHub

/-- Challenge lifecycle status (Prisma schema). -/
inductive ChallengeStatus
  | DRAFT
  | FUNDED
  | ACTIVE
  | COMPLETED
  | CANCELLED
deriving DecidableEq, Repr

/-- Payment row status (Prisma schema). -/
inductive PaymentStatus
  | PENDING
  | COMPLETED
  | FAILED
  | REFUNDED
deriving DecidableEq, Repr

/-- Payment row type (Prisma schema). -/
inductive PaymentType
  | FUNDING
  | PLATFORM_FEE
  | BUYOUT_FEE
  | PAYOUT
deriving DecidableEq, Repr

/-- Payment method (Prisma schema). -/
inductive PaymentMethod
  | WHOP
  | STRIPE
  | CRYPTO
  | SUBSCRIPTION
deriving DecidableEq, Repr

/-- Challenge reward type (Prisma schema). -/
inductive RewardType
  | USD
  | USDC
  | SUBSCRIPTION
deriving DecidableEq, Repr

/-- Submission status (Prisma schema). -/
inductive SubmissionStatus
  | PENDING
  | APPROVED
  | REJECTED
  | PAID
deriving DecidableEq, Repr

/-! ## Fee policy (lib/platform-fee.ts) -/

def PLATFORM_FEE_PERCENT : ℚ := 1/10

def MIN_PLATFORM_FEE : ℚ := 2

def BUYOUT_FEE_AMOUNT : ℚ := 15

structure FeeCalculation where
  rewardAmount : ℚ
  platformFee : ℚ
  netPayout : ℚ
  buyoutFeePaid : Bool
  totalCost : ℚ
deriving DecidableEq, Repr

/-- lib/platform-fee.ts `calculatePlatformFee`. -/
def calculatePlatformFee (rewardAmount : ℚ) (buyoutFeePaid : Bool) : FeeCalculation :=
  if buyoutFeePaid then
    { rewardAmount := rewardAmount
      platformFee := 0
      netPayout := rewardAmount
      buyoutFeePaid := true
      totalCost := rewardAmount + BUYOUT_FEE_AMOUNT }
  else
    let calculatedFee := rewardAmount * PLATFORM_FEE_PERCENT
    let platformFee := max calculatedFee MIN_PLATFORM_FEE
    { rewardAmount := rewardAmount
      platformFee := platformFee
      netPayout := rewardAmount
      buyoutFeePaid := false
      totalCost := rewardAmount + platformFee }

structure ValidationResult where
  isValid : Bool
  message : Option String
deriving DecidableEq, Repr

/-- lib/platform-fee.ts `validateMinimumReward`. -/
def validateMinimumReward (rewardAmount : ℚ) : ValidationResult :=
  if rewardAmount < MIN_PLATFORM_FEE then
    { isValid := false
      message := some ("Minimum reward amount is $2.00 to cover platform fees") }
  else
    { isValid := true, message := none }

/-- lib/platform-fee.ts `calculateFundingAmount`. -/
def calculateFundingAmount (rewardAmount : ℚ) (buyoutFeePaid : Bool) : ℚ :=
  (calculatePlatformFee rewardAmount buyoutFeePaid).totalCost

/-! ## Data model (Prisma schema rows) -/

/-- The metadata map attached to a Whop payment; only the keys the
webhook handler reads are modelled. -/
structure Metadata where
  challengeId : Option String
  userId : Option String
deriving DecidableEq, Repr

structure Challenge where
  id : String
  creatorId : String
  title : String
  rewardType : RewardType
  rewardAmount : ℚ
  platformFee : ℚ
  netPayout : ℚ
  buyoutFeePaid : Bool
  status : ChallengeStatus
  isFunded : Bool
deriving DecidableEq, Repr

structure Payment where
  id : Nat
  challengeId : String
  userId : String
  submissionId : Option String
  type : PaymentType
  method : PaymentMethod
  amount : ℚ
  platformFee : Option ℚ
  currency : String
  whopReceiptId : Option String
  stripePaymentIntentId : Option String
  metadata : Option Metadata
  status : PaymentStatus
deriving DecidableEq, Repr

structure Submission where
  id : String
  challengeId : String
  userId : String
  status : SubmissionStatus
deriving DecidableEq, Repr

structure PaymentSession where
  id : String
  sessionId : String
  challengeId : String
  userId : String
  amount : ℚ
  platformFee : ℚ
  currency : String
  status : PaymentStatus
deriving DecidableEq, Repr

/-- The database state: the persistence collaborator. `nextPaymentId`
models Prisma generating a fresh id for each created Payment row. -/
structure DB where
  challenges : List Challenge
  payments : List Payment
  submissions : List Submission
  paymentSessions : List PaymentSession
  nextPaymentId : Nat
deriving DecidableEq, Repr

/-- prisma.challenge.findUnique by id. -/
def findChallenge (db : DB) (cid : String) : Option Challenge :=
  db.challenges.find? (fun c => c.id == cid)

/-- prisma.challenge.update by id. -/
def updateChallenge (cid : String) (f : Challenge → Challenge) (db : DB) : DB :=
  { db with challenges := db.challenges.map (fun c => if c.id = cid then f c else c) }

/-- prisma.payment.create: appends a row with a fresh generated id. -/
def createPayment (p : Payment) (db : DB) : DB :=
  { db with
    payments := db.payments ++ [{ p with id := db.nextPaymentId }]
    nextPaymentId := db.nextPaymentId + 1 }

/-! ## JavaScript truthiness helpers -/

/-- JavaScript `a || b` on optional strings: the empty string is falsy. -/
def orFalsy (a b : Option String) : Option String :=
  match a with
  | some s => if s = "" then b else some s
  | none => b

/-- JavaScript falsiness of an optional string (undefined or empty). -/
def isFalsy : Option String → Bool
  | none => true
  | some s => s == ""

/-- JavaScript falsiness of an optional number (undefined or zero). -/
def isFalsyAmount : Option ℚ → Bool
  | none => true
  | some q => q == 0

/-! ## Webhook reconciler (src/app/api/webhooks/whop/route.ts) -/

/-- The `data` object of a webhook event; success events carry
receipt_id, amount, metadata and user_id, failure events carry
session_id and error_message. -/
structure EventData where
  receipt_id : Option String
  amount : Option ℚ
  metadata : Option Metadata
  user_id : Option String
  session_id : Option String
  error_message : Option String
deriving DecidableEq, Repr

/-- The COMPLETED FUNDING row that `handlePaymentSuccess` creates on
every delivery it can correlate (prisma.payment.create call). -/
def successPaymentRow (md : Metadata) (data : EventData) (challenge : Challenge)
    (pid : Nat) : Payment :=
  { id := pid
    challengeId := md.challengeId.getD ""
    userId := (orFalsy md.userId data.user_id).getD ""
    submissionId := none
    type := PaymentType.FUNDING
    method := PaymentMethod.WHOP
    amount := challenge.rewardAmount
    platformFee := some challenge.platformFee
    currency := if challenge.rewardType = RewardType.USDC then ("USDC") else ("USD")
    whopReceiptId := data.receipt_id
    stripePaymentIntentId := none
    metadata := some md
    status := PaymentStatus.COMPLETED }

/-- The sequence of database states committed by `handlePaymentSuccess`,
one entry per awaited Prisma call: payment.create, then
challenge.update to FUNDED with isFunded true, then challenge.update to
ACTIVE.  An empty list means the handler returned before any write
(missing metadata or user id, or no matching challenge row). -/
def successSteps (data : EventData) (db : DB) : List DB :=
  match data.metadata with
  | none => []
  | some md =>
    if isFalsy md.challengeId then []
    else
      let challengeId := md.challengeId.getD ""
      let userId := orFalsy md.userId data.user_id
      if isFalsy userId then []
      else
        match findChallenge db challengeId with
        | none => []
        | some challenge =>
          let db1 := createPayment (successPaymentRow md data challenge 0) db
          let db2 := updateChallenge challengeId
            (fun c => { c with status := ChallengeStatus.FUNDED, isFunded := true }) db1
          let db3 := updateChallenge challengeId
            (fun c => { c with status := ChallengeStatus.ACTIVE }) db2
          [db1, db2, db3]

/-- `handlePaymentSuccess`: the final database state of the step
sequence (the handler swallows its own errors, so it always returns). -/
def handlePaymentSuccess (data : EventData) (db : DB) : DB :=
  (successSteps data db).getLastD db

/-- `handlePaymentFailed`: session-id based; updates the payment session
to FAILED and records a FAILED payment row. -/
def handlePaymentFailed (data : EventData) (db : DB) : DB :=
  match data.session_id with
  | none => db
  | some sid =>
    match db.paymentSessions.find? (fun ps => ps.sessionId == sid) with
    | none => db
    | some ps =>
      let sessions1 := db.paymentSessions.map
        (fun q => if q.id = ps.id then { q with status := PaymentStatus.FAILED } else q)
      let db1 := { db with paymentSessions := sessions1 }
      createPayment
        { id := 0
          challengeId := ps.challengeId
          userId := ps.userId
          submissionId := none
          type := PaymentType.FUNDING
          method := PaymentMethod.WHOP
          amount := ps.amount
          platformFee := some ps.platformFee
          currency := ps.currency
          whopReceiptId := none
          stripePaymentIntentId := none
          metadata := none
          status := PaymentStatus.FAILED } db1

/-- JavaScript String.prototype.split with a one-character separator,
on the character list of the string. -/
def splitOnChar (sep : Char) : List Char → List (List Char)
  | [] => [[]]
  | c :: rest =>
    match splitOnChar sep rest with
    | [] => [[]]
    | h :: t => if c = sep then [] :: h :: t else (c :: h) :: t

/-- JavaScript `s.split(sep)` for a one-character separator. -/
def jsSplit (sep : Char) (s : String) : List String :=
  (splitOnChar sep s.data).map (fun cs => String.mk cs)

/-- JavaScript `s.startsWith(pfx)`. -/
def jsStartsWith (s pfx : String) : Bool :=
  pfx.data.isPrefixOf s.data

/-- One hex digit of a Node `Buffer.from(_, hex)` decode. -/
def hexDigitVal (c : Char) : Option Nat :=
  if ('0' ≤ c) ∧ (c ≤ '9') then some (c.toNat - Char.toNat '0')
  else if ('a' ≤ c) ∧ (c ≤ 'f') then some (c.toNat - Char.toNat 'a' + 10)
  else if ('A' ≤ c) ∧ (c ≤ 'F') then some (c.toNat - Char.toNat 'A' + 10)
  else none

/-- Node `Buffer.from(s, hex)`: decodes hex pairs, truncating at the
first invalid pair or odd trailing character. -/
def hexBytes : List Char → List Nat
  | c1 :: c2 :: rest =>
    match hexDigitVal c1, hexDigitVal c2 with
    | some hi, some lo => (16 * hi + lo) :: hexBytes rest
    | _, _ => []
  | _ => []

/-- `crypto.timingSafeEqual(Buffer.from(a, hex), Buffer.from(b, hex))`
inside the try/catch of the verifier: a length mismatch throws and the
catch returns false, so the net value is byte-sequence equality. -/
def timingSafeEqualHex (a b : String) : Bool :=
  hexBytes a.data == hexBytes b.data

/-- `verifyWebhookSignature` (timestamped scheme, the authoritative
variant): parses a `t=timestamp,v1=signature` header, recomputes an
HMAC-SHA256 hex digest of `timestamp.payload` and compares.  The HMAC
primitive is an external collaborator, passed in as `hmac`. -/
def verifyWebhookSignature (hmac : String → String → String) (webhookSecret : Option String)
    (payload : String) (signature : String) : Bool :=
  if isFalsy webhookSecret then false
  else
    let secret := webhookSecret.getD ""
    let elements := jsSplit ',' signature
    let timestamp := (elements.find? (fun el => jsStartsWith el ("t="))).bind
      (fun el => (jsSplit '=' el).get? 1)
    let signatureHash := (elements.find? (fun el => jsStartsWith el ("v1="))).bind
      (fun el => (jsSplit '=' el).get? 1)
    if isFalsy timestamp || isFalsy signatureHash then false
    else
      let signedPayload := timestamp.getD "" ++ "." ++ payload
      let expectedSignature := hmac secret signedPayload
      timingSafeEqualHex (signatureHash.getD "") expectedSignature

/-- A parsed webhook event: the event-type discriminator may live in
`action` or in `type` depending on the processor generation. -/
structure WebhookEvent where
  action : Option String
  type : Option String
  data : EventData
deriving DecidableEq, Repr

/-- An inbound webhook request.  `rawBody` is the text the signature is
computed over; `parsedBody` is the outcome of the runtime JSON.parse on
that text (`none` models a thrown SyntaxError). -/
structure WebhookRequest where
  signature : Option String
  rawBody : String
  parsedBody : Option WebhookEvent
deriving Repr

inductive WebhookResponse
  | received
  | unauthorized (msg : String)
  | internalError
deriving DecidableEq, Repr

def WebhookResponse.statusCode : WebhookResponse → Nat
  | .received => 200
  | .unauthorized _ => 401
  | .internalError => 500

/-- The webhook route POST handler.  The switch accepts the three
success spellings and the two failure spellings; `payment_pending` and
unknown event types are acknowledged without action.  JSON.parse runs
after the signature checks, and its SyntaxError is caught by the
outermost catch, which returns status 500. -/
def webhookPOST (hmac : String → String → String) (webhookSecret : Option String)
    (req : WebhookRequest) (db : DB) : WebhookResponse × DB :=
  match req.signature with
  | none => (WebhookResponse.unauthorized ("Missing signature"), db)
  | some sig =>
    if verifyWebhookSignature hmac webhookSecret req.rawBody sig then
      match req.parsedBody with
      | none => (WebhookResponse.internalError, db)
      | some event =>
        match orFalsy event.action event.type with
        | some ("app_payment.succeeded") =>
            (WebhookResponse.received, handlePaymentSuccess event.data db)
        | some ("payment_succeeded") =>
            (WebhookResponse.received, handlePaymentSuccess event.data db)
        | some ("payment_success") =>
            (WebhookResponse.received, handlePaymentSuccess event.data db)
        | some ("app_payment.failed") =>
            (WebhookResponse.received, handlePaymentFailed event.data db)
        | some ("payment_failed") =>
            (WebhookResponse.received, handlePaymentFailed event.data db)
        | _ => (WebhookResponse.received, db)
    else
      (WebhookResponse.unauthorized ("Invalid signature"), db)

/-! ## Charge initiator (src/app/api/charge/route.ts) -/

/-- An API response: HTTP status plus the error string of the JSON
body, when the body is an error object. -/
structure ApiResponse where
  status : Nat
  error : Option String
deriving DecidableEq, Repr

/-- src/app/api/charge/route.ts POST.  External collaborator results
are parameters: `authedUser` is getAuthenticatedUser, `whopUser` is
getUserFromHeaders, `hasSubscriptionAccess` is
whopSDK.checkUserCompanyAccess, and `createPaymentResult` is the Whop
payment id returned by whopSDK.createPayment (`none` models a thrown
SDK error).  The hard-coded 25 in the BUYOUT_FEE row is the literal
from the source. -/
def chargePOST (authedUser : Option String) (whopUser : Option String)
    (hasSubscriptionAccess : Bool) (createPaymentResult : Option String)
    (challengeId? : Option String) (db : DB) : ApiResponse × DB :=
  match authedUser with
  | none => ({ status := 401, error := some ("Authentication required") }, db)
  | some uid =>
    if isFalsy challengeId? then
      ({ status := 400, error := some ("Challenge ID is required") }, db)
    else
      let challengeId := challengeId?.getD ""
      match findChallenge db challengeId with
      | none => ({ status := 404, error := some ("Challenge not found") }, db)
      | some challenge =>
        if challenge.creatorId ≠ uid then
          ({ status := 403, error := some ("Only the challenge creator can fund this challenge") }, db)
        else if challenge.isFunded then
          ({ status := 400, error := some ("Challenge is already funded") }, db)
        else
          match whopUser with
          | none => ({ status := 400, error := some ("Whop user context required") }, db)
          | some _ =>
            if challenge.rewardType = RewardType.SUBSCRIPTION then
              if hasSubscriptionAccess = false then
                ({ status := 403, error := some ("You do not have access to assign subscription passes for this challenge") }, db)
              else
                let db1 := createPayment
                  { id := 0
                    challengeId := challenge.id
                    userId := uid
                    submissionId := none
                    type := PaymentType.FUNDING
                    method := PaymentMethod.SUBSCRIPTION
                    amount := 0
                    platformFee := none
                    currency := ("CREDITS")
                    whopReceiptId := none
                    stripePaymentIntentId := none
                    metadata := none
                    status := PaymentStatus.COMPLETED } db
                let db2 := updateChallenge challenge.id
                  (fun c => { c with isFunded := true, status := ChallengeStatus.ACTIVE }) db1
                ({ status := 200, error := none }, db2)
            else
              match createPaymentResult with
              | none => ({ status := 500, error := some ("Failed to create payment session") }, db)
              | some whopPaymentId =>
                let totalAmount := calculateFundingAmount challenge.rewardAmount challenge.buyoutFeePaid
                let db1 := createPayment
                  { id := 0
                    challengeId := challenge.id
                    userId := uid
                    submissionId := none
                    type := PaymentType.FUNDING
                    method := PaymentMethod.WHOP
                    amount := totalAmount
                    platformFee := none
                    currency := ("USD")
                    whopReceiptId := none
                    stripePaymentIntentId := some whopPaymentId
                    metadata := none
                    status := PaymentStatus.PENDING } db
                let db2 :=
                  if challenge.buyoutFeePaid then
                    createPayment
                      { id := 0
                        challengeId := challenge.id
                        userId := uid
                        submissionId := none
                        type := PaymentType.BUYOUT_FEE
                        method := PaymentMethod.WHOP
                        amount := 25
                        platformFee := none
                        currency := ("USD")
                        whopReceiptId := none
                        stripePaymentIntentId := none
                        metadata := none
                        status := PaymentStatus.PENDING } db1
                  else
                    createPayment
                      { id := 0
                        challengeId := challenge.id
                        userId := uid
                        submissionId := none
                        type := PaymentType.PLATFORM_FEE
                        method := PaymentMethod.WHOP
                        amount := challenge.platformFee
                        platformFee := none
                        currency := ("USD")
                        whopReceiptId := none
                        stripePaymentIntentId := none
                        metadata := none
                        status := PaymentStatus.PENDING } db1
                ({ status := 200, error := none }, db2)

/-- src/app/api/charge/route.ts GET, the synchronous confirmation core
(lines 305 to 329): when the Whop-side payment is completed and the
local row is still PENDING, complete the row, complete every PENDING
sibling row of the same challenge, then mark the challenge funded and
ACTIVE.  `whopPaymentStatus` is the status string returned by
whopSDK.getPayment. -/
def chargeGETConfirm (whopPaymentStatus : String) (authedUser : String)
    (paymentId : String) (db : DB) : DB :=
  match db.payments.find?
      (fun p => p.stripePaymentIntentId == some paymentId && p.userId == authedUser) with
  | none => db
  | some localPayment =>
    if whopPaymentStatus = "completed" ∧ localPayment.status = PaymentStatus.PENDING then
      let payments1 := db.payments.map
        (fun p => if p.id = localPayment.id then { p with status := PaymentStatus.COMPLETED } else p)
      let db1 := { db with payments := payments1 }
      let payments2 := db1.payments.map
        (fun p =>
          if p.challengeId = localPayment.challengeId ∧ p.status = PaymentStatus.PENDING then
            { p with status := PaymentStatus.COMPLETED }
          else p)
      let db2 := { db1 with payments := payments2 }
      updateChallenge localPayment.challengeId
        (fun c => { c with isFunded := true, status := ChallengeStatus.ACTIVE }) db2
    else db

/-! ## Stripe funding route (the route importing BUYOUT_FEE_AMOUNT) -/

/-- The Stripe-method branch of the funding route POST: creates a
PENDING FUNDING row for the total, then a PENDING BUYOUT_FEE row for
`BUYOUT_FEE_AMOUNT` or a PENDING PLATFORM_FEE row.  `paymentIntentId`
is the id of the Stripe payment intent created by the Stripe SDK. -/
def fundPOSTStripe (authedUser : Option String) (paymentIntentId : String)
    (challengeId : String) (db : DB) : ApiResponse × DB :=
  match authedUser with
  | none => ({ status := 401, error := some ("Authentication required") }, db)
  | some uid =>
    match findChallenge db challengeId with
    | none => ({ status := 404, error := some ("Challenge not found") }, db)
    | some challenge =>
      if challenge.creatorId ≠ uid then
        ({ status := 403, error := some ("Only the challenge creator can fund this challenge") }, db)
      else if challenge.isFunded then
        ({ status := 400, error := some ("Challenge is already funded") }, db)
      else
        let totalAmount := calculateFundingAmount challenge.rewardAmount challenge.buyoutFeePaid
        let db1 := createPayment
          { id := 0
            challengeId := challenge.id
            userId := uid
            submissionId := none
            type := PaymentType.FUNDING
            method := PaymentMethod.STRIPE
            amount := totalAmount
            platformFee := none
            currency := ("USD")
            whopReceiptId := none
            stripePaymentIntentId := some paymentIntentId
            metadata := none
            status := PaymentStatus.PENDING } db
        let db2 :=
          if challenge.buyoutFeePaid then
            createPayment
              { id := 0
                challengeId := challenge.id
                userId := uid
                submissionId := none
                type := PaymentType.BUYOUT_FEE
                method := PaymentMethod.STRIPE
                amount := BUYOUT_FEE_AMOUNT
                platformFee := none
                currency := ("USD")
                whopReceiptId := none
                stripePaymentIntentId := none
                metadata := none
                status := PaymentStatus.PENDING } db1
          else
            createPayment
              { id := 0
                challengeId := challenge.id
                userId := uid
                submissionId := none
                type := PaymentType.PLATFORM_FEE
                method := PaymentMethod.STRIPE
                amount := challenge.platformFee
                platformFee := none
                currency := ("USD")
                whopReceiptId := none
                stripePaymentIntentId := none
                metadata := none
                status := PaymentStatus.PENDING } db1
        ({ status := 200, error := none }, db2)

/-! ## Challenge creation (src/app/api/challenges/route.ts POST) -/

/-- The fee breakdown submitted by the client form. -/
structure FeeCalcClient where
  platformFee : ℚ
  netPayout : ℚ
deriving DecidableEq, Repr

/-- The challenge-creation request body; optional fields model absent
JSON keys. -/
structure ChallengeBody where
  title : Option String
  description : Option String
  rewardType : Option String
  deadline : Option String
  visibility : Option String
  rewardAmount : Option ℚ
  buyoutFeePaid : Option Bool
  rewardSubscriptionId : Option String
  feeCalculation : Option FeeCalcClient
deriving DecidableEq, Repr

structure UserInfo where
  id : String
  is_creator : Bool
deriving DecidableEq, Repr

/-- The required-fields loop over title, description, rewardType,
deadline and visibility (JavaScript falsiness). -/
def missingRequiredField (b : ChallengeBody) : Bool :=
  isFalsy b.title || isFalsy b.description || isFalsy b.rewardType ||
    isFalsy b.deadline || isFalsy b.visibility

/-- The prisma.challenge.create call of the creation route: stored fee
fields come from the client breakdown with JavaScript falsy-default
chains. -/
def createChallengeRow (user : UserInfo) (newId : String) (body : ChallengeBody)
    (db : DB) : DB :=
  let rewardAmount : ℚ :=
    match body.rewardAmount with
    | none => 0
    | some q => q
  let platformFee : ℚ :=
    match body.feeCalculation with
    | none => 0
    | some fc => fc.platformFee
  let netPayout : ℚ :=
    match body.feeCalculation with
    | none => rewardAmount
    | some fc => if fc.netPayout = 0 then rewardAmount else fc.netPayout
  let rewardType :=
    match body.rewardType with
    | some ("USDC") => RewardType.USDC
    | some ("SUBSCRIPTION") => RewardType.SUBSCRIPTION
    | _ => RewardType.USD
  { db with challenges := db.challenges ++ [{
      id := newId
      creatorId := user.id
      title := body.title.getD ""
      rewardType := rewardType
      rewardAmount := rewardAmount
      platformFee := platformFee
      netPayout := netPayout
      buyoutFeePaid := body.buyoutFeePaid.getD false
      status := ChallengeStatus.DRAFT
      isFunded := false }] }

/-- src/app/api/challenges/route.ts POST: validates authentication,
creator role, required fields, the USD/USDC reward amount against
`validateMinimumReward`, and the client fee breakdown against a server
recomputation (0.01 tolerance), then creates the row as DRAFT and
unfunded.  `newChallengeId` models the id Prisma generates. -/
def challengesPOST (authedUser : Option UserInfo) (newChallengeId : String)
    (body : ChallengeBody) (db : DB) : ApiResponse × DB :=
  match authedUser with
  | none => ({ status := 401, error := some ("Authentication required") }, db)
  | some user =>
    if user.is_creator = false then
      ({ status := 403, error := some ("Only creators can create challenges") }, db)
    else if missingRequiredField body then
      ({ status := 400, error := some ("Missing required field") }, db)
    else if body.rewardType = some ("USD") ∨ body.rewardType = some ("USDC") then
      if isFalsyAmount body.rewardAmount then
        ({ status := 400, error := some ("Reward amount is required for USD/USDC challenges") }, db)
      else
        let rewardAmount := body.rewardAmount.getD 0
        let validation := validateMinimumReward rewardAmount
        if validation.isValid = false then
          ({ status := 400, error := validation.message }, db)
        else
          let recalculatedFees := calculatePlatformFee rewardAmount (body.buyoutFeePaid.getD false)
          match body.feeCalculation with
          | none => ({ status := 400, error := some ("Fee calculation mismatch") }, db)
          | some fc =>
            if |fc.platformFee - recalculatedFees.platformFee| > 1/100 ∨
                |fc.netPayout - recalculatedFees.netPayout| > 1/100 then
              ({ status := 400, error := some ("Fee calculation mismatch") }, db)
            else
              ({ status := 201, error := none }, createChallengeRow user newChallengeId body db)
    else if body.rewardType = some ("SUBSCRIPTION") then
      if isFalsy body.rewardSubscriptionId then
        ({ status := 400, error := some ("Subscription ID is required for subscription challenges") }, db)
      else
        ({ status := 201, error := none }, createChallengeRow user newChallengeId body db)
    else
      ({ status := 201, error := none }, createChallengeRow user newChallengeId body db)

/-! ## Challenge deletion (DELETE handler) -/

/-- The challenge DELETE handler: only the creator may delete, and only
a DRAFT challenge is deleted; the delete cascades to the rows owned by
the challenge. -/
def challengeDELETE (authedUser : Option String) (challengeId : String)
    (db : DB) : ApiResponse × DB :=
  match authedUser with
  | none => ({ status := 401, error := some ("Authentication required") }, db)
  | some uid =>
    match findChallenge db challengeId with
    | none => ({ status := 404, error := some ("Challenge not found") }, db)
    | some challenge =>
      if challenge.creatorId ≠ uid then
        ({ status := 403, error := some ("Only the challenge creator can delete challenges") }, db)
      else if challenge.status ≠ ChallengeStatus.DRAFT then
        ({ status := 400, error := some ("Only draft challenges can be deleted. Funded challenges cannot be removed.") }, db)
      else
        ({ status := 200, error := none },
          { db with
            challenges := db.challenges.filter (fun c => c.id != challengeId)
            payments := db.payments.filter (fun p => p.challengeId != challengeId)
            submissions := db.submissions.filter (fun s => s.challengeId != challengeId)
            paymentSessions := db.paymentSessions.filter (fun ps => ps.challengeId != challengeId) })

/-! ## Payout trigger (src/lib/whop-payouts.ts) -/

structure PayoutResult where
  success : Bool
  transactionId : Option String
  error : Option String
deriving DecidableEq, Repr

/-- The idempotence key attached by `payoutUSD` to the Whop payUser
call.  `dateNow` is the Date.now() collaborator value at call time. -/
def payoutUSDIdempotenceKey (submissionId : String) (dateNow : Nat) : String :=
  "payout-" ++ submissionId ++ "-" ++ toString dateNow

/-- The idempotence key attached by `payoutCrypto`. -/
def payoutCryptoIdempotenceKey (submissionId : String) (dateNow : Nat) : String :=
  "crypto-payout-" ++ submissionId ++ "-" ++ toString dateNow

/-- src/lib/whop-payouts.ts `processApprovedSubmission`.  The external
payout call (payoutUSD, payoutCrypto or grantSubscriptionAccess, all
thin Whop SDK wrappers that catch their own errors) is a parameter
`payoutResult`.  On success the submission is marked PAID and a
COMPLETED PAYOUT row is recorded; on failure nothing is written and the
failure result is returned to the caller. -/
def processApprovedSubmission (payoutResult : PayoutResult) (submissionId : String)
    (db : DB) : PayoutResult × DB :=
  match db.submissions.find? (fun s => s.id == submissionId) with
  | none =>
    ({ success := false, transactionId := none, error := some ("Submission not found") }, db)
  | some submission =>
    match findChallenge db submission.challengeId with
    | none =>
      ({ success := false, transactionId := none, error := some ("Challenge not found") }, db)
    | some challenge =>
      if payoutResult.success then
        let submissions1 := db.submissions.map
          (fun s => if s.id = submissionId then { s with status := SubmissionStatus.PAID } else s)
        let db1 := { db with submissions := submissions1 }
        let db2 := createPayment
          { id := 0
            challengeId := challenge.id
            userId := submission.userId
            submissionId := some submissionId
            type := PaymentType.PAYOUT
            method := PaymentMethod.WHOP
            amount := challenge.rewardAmount
            platformFee := none
            currency := if challenge.rewardType = RewardType.USDC then ("USDC") else ("USD")
            whopReceiptId := none
            stripePaymentIntentId := none
            metadata := none
            status := PaymentStatus.COMPLETED } db1
        (payoutResult, db2)
      else
        (payoutResult, db)

/-! ## System operations and the funded-active invariant -/

/-- One inbound unit of work, for stating system-wide invariants. -/
inductive Op
  | webhook (hmac : String → String → String) (secret : Option String) (req : WebhookRequest)
  | charge (authedUser whopUser : Option String) (hasAccess : Bool)
      (payRes : Option String) (challengeId : Option String)
  | confirm (whopStatus : String) (uid pid : String)
  | create (authedUser : Option UserInfo) (newId : String) (body : ChallengeBody)
  | delete (authedUser : Option String) (challengeId : String)
  | payout (res : PayoutResult) (submissionId : String)

/-- The database transition of an operation. -/
def applyOp : Op → DB → DB
  | Op.webhook h s r, db => (webhookPOST h s r db).2
  | Op.charge a w acc pr cid, db => (chargePOST a w acc pr cid db).2
  | Op.confirm ws uid pid, db => chargeGETConfirm ws uid pid db
  | Op.create a nid body, db => (challengesPOST a nid body db).2
  | Op.delete a cid, db => (challengeDELETE a cid db).2
  | Op.payout res sid, db => (processApprovedSubmission res sid db).2

/-- A challenge is funded exactly when it is ACTIVE. -/
def challengeInvariant (c : Challenge) : Prop :=
  c.isFunded = true ↔ c.status = ChallengeStatus.ACTIVE

instance (c : Challenge) : Decidable (challengeInvariant c) := by
  unfold challengeInvariant
  infer_instance

/-- Every challenge row of the database is funded exactly when ACTIVE. -/
def dbInvariant (db : DB) : Prop :=
  ∀ c ∈ db.challenges, challengeInvariant c

instance (db : DB) : Decidable (dbInvariant db) := by
  unfold dbInvariant
  infer_instance

/-- The amended response classification of the webhook route: 401 when
the signature is absent or does not verify, 500 when the body fails
JSON.parse, 200 otherwise. -/
def webhookStatusClassification (hmac : String → String → String)
    (webhookSecret : Option String) (req : WebhookRequest) : Nat :=
  match req.signature with
  | none => 401
  | some sig =>
    if verifyWebhookSignature hmac webhookSecret req.rawBody sig then
      match req.parsedBody with
      | none => 500
      | some _ => 200
    else 401

/-- Whether the event-type discriminator is one of the three success
spellings accepted by the switch. -/
def isSuccessEventType (e : WebhookEvent) : Bool :=
  (orFalsy e.action e.type == some ("app_payment.succeeded")) ||
  (orFalsy e.action e.type == some ("payment_succeeded")) ||
  (orFalsy e.action e.type == some ("payment_success"))

/-- Whether the event-type discriminator is one of the two failure
spellings accepted by the switch. -/
def isFailedEventType (e : WebhookEvent) : Bool :=
  (orFalsy e.action e.type == some ("app_payment.failed")) ||
  (orFalsy e.action e.type == some ("payment_failed"))

/-! ## Concrete sample inputs used by witnesses and counterexamples -/

/-- A stand-in for the HMAC-SHA256 collaborator in concrete runs: a
function returning a fixed hex digest. -/
def hmacConst : String → String → String := fun _ _ => "ab"

def sampleMd : Metadata := { challengeId := some ("ch1"), userId := some ("u1") }

def sampleData : EventData :=
  { receipt_id := some ("r_1"), amount := some 110, metadata := some sampleMd,
    user_id := none, session_id := none, error_message := none }

def sampleChallenge : Challenge :=
  { id := "ch1", creatorId := "u1", title := "t", rewardType := RewardType.USD,
    rewardAmount := 100, platformFee := 10, netPayout := 100, buyoutFeePaid := false,
    status := ChallengeStatus.DRAFT, isFunded := false }

def samplePendingFunding : Payment :=
  { id := 0, challengeId := "ch1", userId := "u1", submissionId := none,
    type := PaymentType.FUNDING, method := PaymentMethod.WHOP, amount := 110,
    platformFee := none, currency := "USD", whopReceiptId := none,
    stripePaymentIntentId := some ("pay_1"), metadata := none,
    status := PaymentStatus.PENDING }

def samplePendingFee : Payment :=
  { id := 1, challengeId := "ch1", userId := "u1", submissionId := none,
    type := PaymentType.PLATFORM_FEE, method := PaymentMethod.WHOP, amount := 10,
    platformFee := none, currency := "USD", whopReceiptId := none,
    stripePaymentIntentId := none, metadata := none,
    status := PaymentStatus.PENDING }

/-- A database holding one DRAFT unfunded challenge with its PENDING
FUNDING and PENDING PLATFORM_FEE rows, as the charge initiator leaves
it before the webhook arrives. -/
def sampleDb : DB :=
  { challenges := [sampleChallenge], payments := [samplePendingFunding, samplePendingFee],
    submissions := [], paymentSessions := [], nextPaymentId := 2 }

/-- An authentic but malformed request: the signature verifies against
`hmacConst`, JSON.parse fails. -/
def sampleMalformedReq : WebhookRequest :=
  { signature := some ("t=1,v1=ab"), rawBody := "not json", parsedBody := none }

/-- An authentic, well-formed success event whose metadata challenge id
matches no local challenge row. -/
def sampleUnmatchedEvent : WebhookEvent :=
  { action := some ("payment_succeeded"), type := none,
    data := { receipt_id := some ("r_2"), amount := some 5,
              metadata := some { challengeId := some ("ghost"), userId := some ("u1") },
              user_id := none, session_id := none, error_message := none } }

def sampleUnmatchedReq : WebhookRequest :=
  { signature := some ("t=1,v1=ab"), rawBody := "body", parsedBody := some sampleUnmatchedEvent }

def sampleBuyoutChallenge : Challenge :=
  { id := "ch1", creatorId := "u1", title := "t", rewardType := RewardType.USD,
    rewardAmount := 100, platformFee := 0, netPayout := 100, buyoutFeePaid := true,
    status := ChallengeStatus.DRAFT, isFunded := false }

def sampleBuyoutDb : DB :=
  { challenges := [sampleBuyoutChallenge], payments := [], submissions := [],
    paymentSessions := [], nextPaymentId := 0 }

def sampleActiveChallenge : Challenge :=
  { id := "ch1", creatorId := "u1", title := "t", rewardType := RewardType.USD,
    rewardAmount := 100, platformFee := 10, netPayout := 100, buyoutFeePaid := false,
    status := ChallengeStatus.ACTIVE, isFunded := true }

def sampleActiveDb : DB :=
  { challenges := [sampleActiveChallenge], payments := [], submissions := [],
    paymentSessions := [], nextPaymentId := 0 }

def sampleSubmission : Submission :=
  { id := "s1", challengeId := "ch1", userId := "u2", status := SubmissionStatus.APPROVED }

def sampleSubmissionDb : DB :=
  { challenges := [sampleActiveChallenge], payments := [], submissions := [sampleSubmission],
    paymentSessions := [], nextPaymentId := 0 }

def sampleFailedPayout : PayoutResult :=
  { success := false, transactionId := none, error := some ("insufficient funds") }

def sampleBody : ChallengeBody :=
  { title := some ("t"), description := some ("d"), rewardType := some ("USD"),
    deadline := some ("2030-01-01"), visibility := some ("PUBLIC"),
    rewardAmount := some 1, buyoutFeePaid := some false,
    rewardSubscriptionId := none, feeCalculation := none }

/-- The same creation request with reward 2, the smallest accepted. -/
def sampleBody2 : ChallengeBody :=
  { title := some ("t"), description := some ("d"), rewardType := some ("USD"),
    deadline := some ("2030-01-01"), visibility := some ("PUBLIC"),
    rewardAmount := some 2, buyoutFeePaid := some false,
    rewardSubscriptionId := none, feeCalculation := none }

def sampleCreator : UserInfo := { id := "u1", is_creator := true }

/-! ## List helper lemmas for id-keyed row updates -/

theorem map_update_update (cid : String) (f g : Challenge → Challenge)
    (hf : ∀ c, (f c).id = c.id) (l : List Challenge) :
    (l.map (fun c => if c.id = cid then f c else c)).map
        (fun c => if c.id = cid then g c else c)
      = l.map (fun c => if c.id = cid then g (f c) else c) := by
  induction l with
  | nil => rfl
  | cons c l ih =>
    simp only [List.map_cons, ih]
    by_cases h : c.id = cid
    · rw [if_pos h, if_pos (by rw [hf c]; exact h), if_pos h]
    · rw [if_neg h, if_neg h, if_neg h]

theorem find?_update_list (cid : String) (f : Challenge → Challenge)
    (hf : ∀ c, (f c).id = c.id) (l : List Challenge) :
    (l.map (fun c => if c.id = cid then f c else c)).find? (fun c => c.id == cid)
      = (l.find? (fun c => c.id == cid)).map f := by
  induction l with
  | nil => rfl
  | cons c l ih =>
    by_cases h : c.id = cid
    · rw [List.map_cons, if_pos h,
        List.find?_cons_of_pos _ (by simp [hf c, h]),
        List.find?_cons_of_pos _ (by simp [h])]
      rfl
    · rw [List.map_cons, if_neg h,
        List.find?_cons_of_neg _ (by simp [h]),
        List.find?_cons_of_neg _ (by simp [h]), ih]

theorem active_after_update (cid : String) (l : List Challenge) (c : Challenge)
    (hc : c ∈ l.map (fun x => if x.id = cid then
      { x with status := ChallengeStatus.ACTIVE, isFunded := true } else x))
    (hid : c.id = cid) :
    c.isFunded = true ∧ c.status = ChallengeStatus.ACTIVE := by
  rcases List.mem_map.1 hc with ⟨c0, hc0, hceq⟩
  by_cases h : c0.id = cid
  · rw [if_pos h] at hceq
    rw [← hceq]
    exact ⟨rfl, rfl⟩
  · rw [if_neg h] at hceq
    rw [← hceq] at hid
    exact absurd hid h

/-! ## Claim theorems -/

/-- Claim C5: the fee policy is deterministic; with the buyout it
returns zero fee, full net payout and reward plus 15 total; without it
the fee is the maximum of ten percent and 2, the net payout is the full
reward, and the total is reward plus fee; reward 100 gives fee 10 and
total 110, buyout gives fee 0 and total 115, reward 20 gives fee 2. -/
theorem C5_fee_policy (r : ℚ) (hr : 0 ≤ r) :
    ((calculatePlatformFee r true).platformFee = 0
      ∧ (calculatePlatformFee r true).netPayout = r
      ∧ (calculatePlatformFee r true).totalCost = r + 15)
    ∧ ((calculatePlatformFee r false).platformFee = max (r * (1/10)) 2
      ∧ (calculatePlatformFee r false).netPayout = r
      ∧ (calculatePlatformFee r false).totalCost = r + max (r * (1/10)) 2)
    ∧ (calculatePlatformFee 100 false).platformFee = 10
    ∧ (calculatePlatformFee 100 false).totalCost = 110
    ∧ (calculatePlatformFee 100 true).platformFee = 0
    ∧ (calculatePlatformFee 100 true).totalCost = 115
    ∧ (calculatePlatformFee 20 false).platformFee = 2 := by
  refine ⟨⟨rfl, rfl, rfl⟩, ⟨rfl, rfl, rfl⟩, ?_, ?_, rfl, ?_, ?_⟩
  · show max ((100 : ℚ) * PLATFORM_FEE_PERCENT) MIN_PLATFORM_FEE = 10
    rw [max_def]
    norm_num [PLATFORM_FEE_PERCENT, MIN_PLATFORM_FEE]
  · show (100 : ℚ) + max ((100 : ℚ) * PLATFORM_FEE_PERCENT) MIN_PLATFORM_FEE = 110
    rw [max_def]
    norm_num [PLATFORM_FEE_PERCENT, MIN_PLATFORM_FEE]
  · show (100 : ℚ) + BUYOUT_FEE_AMOUNT = 115
    norm_num [BUYOUT_FEE_AMOUNT]
  · show max ((20 : ℚ) * PLATFORM_FEE_PERCENT) MIN_PLATFORM_FEE = 2
    rw [max_def]
    norm_num [PLATFORM_FEE_PERCENT, MIN_PLATFORM_FEE]

/-- Witness for C5 at reward 100. -/
theorem C5_fee_policy_witness :
    (0 : ℚ) ≤ 100 ∧ (calculatePlatformFee 100 false).platformFee = 10 :=
  ⟨by norm_num, (C5_fee_policy 100 (by norm_num)).2.2.1⟩

/-- Claim C6 (code bug): the buyout charge records a BUYOUT_FEE row of
amount 25 in the Whop charge route, while the fee policy constant is
15 and the Stripe funding route records 15 — the constant is not
single-sourced. -/
theorem C6_buyout_amount_mismatch :
    ((chargePOST (some ("u1")) (some ("w1")) false (some ("pay_1")) (some ("ch1"))
        sampleBuyoutDb).2.payments.filter
        (fun p => p.type == PaymentType.BUYOUT_FEE)).map Payment.amount = [25]
    ∧ ((fundPOSTStripe (some ("u1")) "pi_1" "ch1" sampleBuyoutDb).2.payments.filter
        (fun p => p.type == PaymentType.BUYOUT_FEE)).map Payment.amount = [BUYOUT_FEE_AMOUNT]
    ∧ (25 : ℚ) ≠ BUYOUT_FEE_AMOUNT :=
  ⟨by decide, by decide, by decide⟩

/-- Claim C8 (code bug): the payout idempotence key embeds Date.now(),
so two payout attempts for the same submission at different times carry
different keys — the key is not a function of the submission id alone. -/
theorem C8_idempotence_key_varies :
    payoutUSDIdempotenceKey "sub_1" 1000 ≠ payoutUSDIdempotenceKey "sub_1" 1001
    ∧ payoutCryptoIdempotenceKey "sub_1" 1000 ≠ payoutCryptoIdempotenceKey "sub_1" 1001 :=
  ⟨by decide, by decide⟩

/-- Claim C9: a non-buyout USD/USDC creation request with reward below
the 2-unit minimum is rejected with a descriptive error and no
challenge row is created; rewards of at least 2 pass the
minimum-reward validation. -/
theorem C9_minimum_reward (user : UserInfo) (newId : String) (body : ChallengeBody)
    (db : DB) (r : ℚ)
    (hcreator : user.is_creator = true)
    (hfields : missingRequiredField body = false)
    (htype : body.rewardType = some ("USD") ∨ body.rewardType = some ("USDC"))
    (hamt : body.rewardAmount = some r) :
    (r < 2 →
      (challengesPOST (some user) newId body db).1.status = 400
      ∧ (challengesPOST (some user) newId body db).1.error ≠ none
      ∧ (challengesPOST (some user) newId body db).2 = db)
    ∧ (2 ≤ r → (validateMinimumReward r).isValid = true) := by
  constructor
  · intro hlt
    have hcreator' : ¬ user.is_creator = false := by simp [hcreator]
    unfold challengesPOST
    dsimp only
    rw [if_neg hcreator', if_neg (by simp [hfields]), if_pos htype]
    by_cases h0 : r = 0
    · have : isFalsyAmount body.rewardAmount = true := by
        rw [hamt, h0]
        rfl
      rw [if_pos this]
      exact ⟨rfl, by simp, rfl⟩
    · have hfalsy : ¬ isFalsyAmount body.rewardAmount = true := by
        rw [hamt]
        simpa [isFalsyAmount] using h0
      rw [if_neg hfalsy]
      have hval : validateMinimumReward (body.rewardAmount.getD 0) =
          { isValid := false,
            message := some ("Minimum reward amount is $2.00 to cover platform fees") } := by
        rw [hamt]
        unfold validateMinimumReward
        rw [if_pos (by simpa [MIN_PLATFORM_FEE] using hlt)]
      rw [hval]
      exact ⟨rfl, by simp, rfl⟩
  · intro hle
    unfold validateMinimumReward
    rw [if_neg (by simpa [MIN_PLATFORM_FEE] using not_lt.2 hle)]

/-- Witness for C9: reward 1 is rejected, leaving the database
unchanged, and reward 2 passes validation. -/
theorem C9_minimum_reward_witness :
    ((challengesPOST (some sampleCreator) "new1" sampleBody sampleDb).1.status = 400
      ∧ (challengesPOST (some sampleCreator) "new1" sampleBody sampleDb).1.error ≠ none
      ∧ (challengesPOST (some sampleCreator) "new1" sampleBody sampleDb).2 = sampleDb)
    ∧ (validateMinimumReward 2).isValid = true :=
  ⟨(C9_minimum_reward sampleCreator "new1" sampleBody sampleDb 1 rfl (by decide)
      (Or.inl rfl) rfl).1 (by norm_num),
    (C9_minimum_reward sampleCreator "new1" sampleBody2 sampleDb 2 rfl (by decide)
      (Or.inl rfl) rfl).2 (by norm_num)⟩

/-- Claim C10: a creator-issued deletion succeeds only on a DRAFT
challenge; any other status is rejected with an error and the database
is unchanged. -/
theorem C10_delete_draft_only (uid challengeId : String) (db : DB) (challenge : Challenge)
    (hfind : findChallenge db challengeId = some challenge)
    (howner : challenge.creatorId = uid) :
    (challenge.status ≠ ChallengeStatus.DRAFT →
      (challengeDELETE (some uid) challengeId db).1.status = 400
      ∧ (challengeDELETE (some uid) challengeId db).1.error ≠ none
      ∧ (challengeDELETE (some uid) challengeId db).2 = db)
    ∧ (challenge.status = ChallengeStatus.DRAFT →
      (challengeDELETE (some uid) challengeId db).1.status = 200
      ∧ (challengeDELETE (some uid) challengeId db).2.challenges
          = db.challenges.filter (fun c => c.id != challengeId)) := by
  have howner' : ¬ challenge.creatorId ≠ uid := by simp [howner]
  constructor
  · intro hnd
    unfold challengeDELETE
    rw [hfind]
    dsimp only
    rw [if_neg howner', if_pos hnd]
    exact ⟨rfl, by simp, rfl⟩
  · intro hd
    unfold challengeDELETE
    rw [hfind]
    dsimp only
    rw [if_neg howner', if_neg (by simp [hd])]
    exact ⟨rfl, rfl⟩

/-- Witness for C10: deleting an ACTIVE challenge is rejected and the
database is unchanged. -/
theorem C10_delete_draft_only_witness :
    (challengeDELETE (some ("u1")) "ch1" sampleActiveDb).1.status = 400
    ∧ (challengeDELETE (some ("u1")) "ch1" sampleActiveDb).1.error ≠ none
    ∧ (challengeDELETE (some ("u1")) "ch1" sampleActiveDb).2 = sampleActiveDb :=
  (C10_delete_draft_only "u1" "ch1" sampleActiveDb sampleActiveChallenge
    (by decide) rfl).1 (by decide)

/-- Claim C7: on payout success the submission becomes PAID and a
COMPLETED PAYOUT row is appended; on payout failure nothing in the
database changes and the failure result is returned to the caller. -/
theorem C7_payout_application (res : PayoutResult) (submissionId : String) (db : DB)
    (submission : Submission) (challenge : Challenge)
    (hsub : db.submissions.find? (fun s => s.id == submissionId) = some submission)
    (happr : submission.status = SubmissionStatus.APPROVED)
    (hch : findChallenge db submission.challengeId = some challenge) :
    (res.success = true →
      (∃ p : Payment,
        (processApprovedSubmission res submissionId db).2.payments = db.payments ++ [p]
        ∧ p.type = PaymentType.PAYOUT
        ∧ p.status = PaymentStatus.COMPLETED
        ∧ p.submissionId = some submissionId)
      ∧ (∀ s ∈ (processApprovedSubmission res submissionId db).2.submissions,
          s.id = submissionId → s.status = SubmissionStatus.PAID)
      ∧ (processApprovedSubmission res submissionId db).1 = res)
    ∧ (res.success = false →
      (processApprovedSubmission res submissionId db).2 = db
      ∧ (processApprovedSubmission res submissionId db).1 = res) := by
  constructor
  · intro hs
    unfold processApprovedSubmission
    rw [hsub]
    dsimp only
    rw [hch]
    dsimp only
    rw [if_pos hs]
    refine ⟨⟨_, rfl, rfl, rfl, rfl⟩, ?_, rfl⟩
    intro s hmem hid
    rcases List.mem_map.1 hmem with ⟨s0, hs0, hseq⟩
    by_cases h : s0.id = submissionId
    · rw [if_pos h] at hseq
      rw [← hseq]
    · rw [if_neg h] at hseq
      rw [← hseq] at hid
      exact absurd hid h
  · intro hs
    unfold processApprovedSubmission
    rw [hsub]
    dsimp only
    rw [hch]
    dsimp only
    rw [if_neg (by simp [hs])]
    exact ⟨rfl, rfl⟩

/-- Witness for C7: a failed payout leaves the database unchanged and
returns the failure. -/
theorem C7_payout_application_witness :
    (processApprovedSubmission sampleFailedPayout "s1" sampleSubmissionDb).2 = sampleSubmissionDb
    ∧ (processApprovedSubmission sampleFailedPayout "s1" sampleSubmissionDb).1 = sampleFailedPayout :=
  (C7_payout_application sampleFailedPayout "s1" sampleSubmissionDb sampleSubmission
    sampleActiveChallenge (by decide) rfl (by decide)).2 rfl

/-! ## Structure of one correlated success delivery -/

theorem getLastD_three (a b c d : DB) : ([a, b, c] : List DB).getLastD d = c := rfl

/-- A success delivery the handler can correlate composes to: append
one COMPLETED FUNDING row and set the matched challenge to ACTIVE and
funded (through the intermediate FUNDED write). -/
theorem handlePaymentSuccess_matched (data : EventData) (db : DB) (md : Metadata)
    (cid : String) (challenge : Challenge)
    (hmd : data.metadata = some md)
    (hcid : md.challengeId = some cid)
    (hcid0 : ¬ cid = "")
    (huser : isFalsy (orFalsy md.userId data.user_id) = false)
    (hch : findChallenge db cid = some challenge) :
    handlePaymentSuccess data db =
      { challenges := db.challenges.map (fun c => if c.id = cid then
          { c with status := ChallengeStatus.ACTIVE, isFunded := true } else c)
        payments := db.payments ++ [successPaymentRow md data challenge db.nextPaymentId]
        submissions := db.submissions
        paymentSessions := db.paymentSessions
        nextPaymentId := db.nextPaymentId + 1 } := by
  unfold handlePaymentSuccess successSteps
  rw [hmd]
  dsimp only
  have h1 : ¬ isFalsy md.challengeId = true := by
    rw [hcid]
    simp [isFalsy, hcid0]
  rw [if_neg h1, if_neg (by simp [huser]), hcid]
  dsimp only [Option.getD_some]
  rw [hch]
  dsimp only
  rw [getLastD_three]
  unfold updateChallenge createPayment
  dsimp only
  rw [map_update_update cid
    (fun c => { c with status := ChallengeStatus.FUNDED, isFunded := true })
    (fun c => { c with status := ChallengeStatus.ACTIVE })
    (fun c => rfl)]
  rfl

/-- Claim C1 (amended): re-delivering the same success event leaves the
Challenge rows unchanged (the matched challenge stays ACTIVE and
funded), but it is not a no-op: no row status is checked, and each
delivery appends a fresh COMPLETED FUNDING Payment row, so the state
after the second delivery differs from the state after the first. -/
theorem C1_replay_not_noop (data : EventData) (db : DB) (md : Metadata)
    (cid : String) (challenge : Challenge)
    (hmd : data.metadata = some md)
    (hcid : md.challengeId = some cid)
    (hcid0 : ¬ cid = "")
    (huser : isFalsy (orFalsy md.userId data.user_id) = false)
    (hch : findChallenge db cid = some challenge) :
    handlePaymentSuccess data (handlePaymentSuccess data db)
        ≠ handlePaymentSuccess data db
    ∧ (handlePaymentSuccess data (handlePaymentSuccess data db)).challenges
        = (handlePaymentSuccess data db).challenges
    ∧ (∀ c ∈ (handlePaymentSuccess data (handlePaymentSuccess data db)).challenges,
        c.id = cid → c.isFunded = true ∧ c.status = ChallengeStatus.ACTIVE)
    ∧ (handlePaymentSuccess data (handlePaymentSuccess data db)).payments
        = (handlePaymentSuccess data db).payments
          ++ [successPaymentRow md data challenge (db.nextPaymentId + 1)] := by
  have e1 := handlePaymentSuccess_matched data db md cid challenge hmd hcid hcid0 huser hch
  have hch2 : findChallenge (handlePaymentSuccess data db) cid
      = some { challenge with status := ChallengeStatus.ACTIVE, isFunded := true } := by
    rw [e1]
    unfold findChallenge at hch ⊢
    dsimp only
    rw [find?_update_list cid
      (fun c => { c with status := ChallengeStatus.ACTIVE, isFunded := true })
      (fun c => rfl), hch]
    rfl
  have e2 := handlePaymentSuccess_matched data (handlePaymentSuccess data db) md cid
    { challenge with status := ChallengeStatus.ACTIVE, isFunded := true }
    hmd hcid hcid0 huser hch2
  refine ⟨?_, ?_, ?_, ?_⟩
  · rw [e2]
    intro h
    have hn := congrArg DB.nextPaymentId h
    dsimp only at hn
    exact Nat.succ_ne_self _ hn
  · rw [e2, e1]
    dsimp only
    rw [map_update_update cid
      (fun c => { c with status := ChallengeStatus.ACTIVE, isFunded := true })
      (fun c => { c with status := ChallengeStatus.ACTIVE, isFunded := true })
      (fun c => rfl)]
  
  · intro c hc hid
    rw [e2] at hc
    dsimp only at hc
    exact active_after_update cid _ c hc hid
  · rw [e2, e1]
    rfl

/-- Counterexample to C1 as stated: on a database holding the pending
challenge and its PENDING FUNDING payment, the state after the second
delivery of the same event differs from the state after the first. -/
theorem C1_counterexample :
    handlePaymentSuccess sampleData (handlePaymentSuccess sampleData sampleDb)
      ≠ handlePaymentSuccess sampleData sampleDb := by decide

/-- Witness for C1 (amended) at the sample database. -/
theorem C1_replay_not_noop_witness :
    (handlePaymentSuccess sampleData (handlePaymentSuccess sampleData sampleDb)).challenges
      = (handlePaymentSuccess sampleData sampleDb).challenges :=
  (C1_replay_not_noop sampleData sampleDb sampleMd "ch1" sampleChallenge rfl rfl
    (by decide) (by decide) (by decide)).2.1

/-- Claim C2 (amended): processing a success event applies no group
transition: every previously PENDING payment row (platform fee or
buyout fee) is left in the database unchanged and still PENDING, a new
COMPLETED FUNDING row is appended instead, and the challenge is set
ACTIVE and funded through two separate sequential updates — so the
state with an ACTIVE challenge and a PENDING fee payment persists. -/
theorem C2_no_group_transition (data : EventData) (db : DB) (md : Metadata)
    (cid : String) (challenge : Challenge) (p : Payment)
    (hmd : data.metadata = some md)
    (hcid : md.challengeId = some cid)
    (hcid0 : ¬ cid = "")
    (huser : isFalsy (orFalsy md.userId data.user_id) = false)
    (hch : findChallenge db cid = some challenge)
    (hp : p ∈ db.payments)
    (hpend : p.status = PaymentStatus.PENDING) :
    p ∈ (handlePaymentSuccess data db).payments
    ∧ (∀ c ∈ (handlePaymentSuccess data db).challenges,
        c.id = cid → c.isFunded = true ∧ c.status = ChallengeStatus.ACTIVE)
    ∧ (handlePaymentSuccess data db).payments
        = db.payments ++ [successPaymentRow md data challenge db.nextPaymentId] := by
  have e1 := handlePaymentSuccess_matched data db md cid challenge hmd hcid hcid0 huser hch
  refine ⟨?_, ?_, ?_⟩
  · rw [e1]
    exact List.mem_append_left _ hp
  · intro c hc hid
    rw [e1] at hc
    dsimp only at hc
    exact active_after_update cid _ c hc hid
  · rw [e1]

/-- Counterexample to C2 as stated: after processing the success event,
the database still holds a PENDING PLATFORM_FEE payment for the
challenge while the challenge is ACTIVE and funded — the partial state
the claim says is never observable. -/
theorem C2_counterexample :
    ((handlePaymentSuccess sampleData sampleDb).payments.any
        (fun q => q.type == PaymentType.PLATFORM_FEE && q.status == PaymentStatus.PENDING)) = true
    ∧ ((handlePaymentSuccess sampleData sampleDb).challenges.any
        (fun c => c.isFunded && c.status == ChallengeStatus.ACTIVE)) = true :=
  ⟨by decide, by decide⟩

/-- Witness for C2 (amended): the PENDING PLATFORM_FEE row survives the
success delivery untouched. -/
theorem C2_no_group_transition_witness :
    samplePendingFee ∈ (handlePaymentSuccess sampleData sampleDb).payments :=
  (C2_no_group_transition sampleData sampleDb sampleMd "ch1" sampleChallenge
    samplePendingFee rfl rfl (by decide) (by decide) (by decide)
    (by decide) rfl).1

/-! ## Unmatched deliveries are no-ops -/

theorem handlePaymentSuccess_unmatched (data : EventData) (db : DB) (md : Metadata)
    (cid : String)
    (hmd : data.metadata = some md)
    (hcid : md.challengeId = some cid)
    (hch : findChallenge db cid = none) :
    handlePaymentSuccess data db = db := by
  unfold handlePaymentSuccess successSteps
  rw [hmd]
  dsimp only
  by_cases h1 : isFalsy md.challengeId = true
  · rw [if_pos h1]
    rfl
  · rw [if_neg h1]
    by_cases h2 : isFalsy (orFalsy md.userId data.user_id) = true
    · rw [if_pos h2]
      rfl
    · rw [if_neg h2, hcid]
      dsimp only [Option.getD_some]
      rw [hch]
      rfl

theorem handlePaymentFailed_unmatched (data : EventData) (db : DB) (sid : String)
    (hsid : data.session_id = some sid)
    (hfind : db.paymentSessions.find? (fun ps => ps.sessionId == sid) = none) :
    handlePaymentFailed data db = db := by
  unfold handlePaymentFailed
  rw [hsid]
  dsimp only
  rw [hfind]

/-- A success event missing its required correlation fields — no
metadata, a falsy challenge id, or a falsy user id — is dropped by the
handler before any write. -/
theorem handlePaymentSuccess_missing_fields (data : EventData) (db : DB)
    (h : data.metadata = none
      ∨ (∃ md, data.metadata = some md ∧ isFalsy md.challengeId = true)
      ∨ (∃ md, data.metadata = some md
          ∧ isFalsy (orFalsy md.userId data.user_id) = true)) :
    handlePaymentSuccess data db = db := by
  unfold handlePaymentSuccess successSteps
  rcases h with h | ⟨md, hmd, hcid⟩ | ⟨md, hmd, huser⟩
  · rw [h]
    rfl
  · rw [hmd]
    dsimp only
    rw [if_pos hcid]
    rfl
  · rw [hmd]
    dsimp only
    by_cases h1 : isFalsy md.challengeId = true
    · rw [if_pos h1]
      rfl
    · rw [if_neg h1, if_pos huser]
      rfl

/-- A failure event with no session_id field: the Prisma lookup on an
undefined key throws, the handler catch swallows it, nothing is
written. -/
theorem handlePaymentFailed_no_session (data : EventData) (db : DB)
    (h : data.session_id = none) :
    handlePaymentFailed data db = db := by
  unfold handlePaymentFailed
  rw [h]

/-- An authentic, well-formed event whose type discriminator is none of
the five handled spellings (payment_pending, an unknown type, or a
falsy discriminator) is acknowledged without action. -/
theorem webhookPOST_unrecognized (hmac : String → String → String)
    (secret : Option String) (req : WebhookRequest) (db : DB) (sig : String)
    (e : WebhookEvent)
    (hsig : req.signature = some sig)
    (hver : verifyWebhookSignature hmac secret req.rawBody sig = true)
    (hbody : req.parsedBody = some e)
    (hsucc : isSuccessEventType e = false)
    (hfail : isFailedEventType e = false) :
    webhookPOST hmac secret req db = (WebhookResponse.received, db) := by
  unfold webhookPOST
  rw [hsig]
  dsimp only
  rw [if_pos hver, hbody]
  dsimp only
  split
  all_goals
    first
    | rfl
    | (rename_i heq
       simp only [isSuccessEventType, isFailedEventType, heq] at hsucc hfail
       simp at hsucc hfail)

/-- Claim C4 (amended): the webhook response is a function of the
classification, with the amendment that an authentic request whose body
fails JSON.parse is answered 500 (the parse error reaches the outer
catch), not 400; an absent or non-matching signature gives 401 with no
mutation; any non-200 answer leaves the database unchanged; and an
authentic, well-formed event that matches no local state — a success
event whose metadata challenge id has no challenge row, or a failure
event whose session id has no session row — or that is missing required
fields — a success event with no metadata, a falsy challenge id or a
falsy user id, a failure event with no session id, or an event whose
type discriminator is not a recognized spelling — is answered 200 with
no mutation. -/
theorem C4_response_classification (hmac : String → String → String)
    (secret : Option String) (req : WebhookRequest) (db : DB) :
    ((webhookPOST hmac secret req db).1.statusCode
        = webhookStatusClassification hmac secret req)
    ∧ ((webhookPOST hmac secret req db).1.statusCode ≠ 200 →
        (webhookPOST hmac secret req db).2 = db)
    ∧ (∀ sig e md cid, req.signature = some sig →
        verifyWebhookSignature hmac secret req.rawBody sig = true →
        req.parsedBody = some e →
        isSuccessEventType e = true →
        e.data.metadata = some md →
        md.challengeId = some cid →
        findChallenge db cid = none →
        (webhookPOST hmac secret req db).1.statusCode = 200
          ∧ (webhookPOST hmac secret req db).2 = db)
    ∧ (∀ sig e sid, req.signature = some sig →
        verifyWebhookSignature hmac secret req.rawBody sig = true →
        req.parsedBody = some e →
        isFailedEventType e = true →
        e.data.session_id = some sid →
        db.paymentSessions.find? (fun ps => ps.sessionId == sid) = none →
        (webhookPOST hmac secret req db).1.statusCode = 200
          ∧ (webhookPOST hmac secret req db).2 = db)
    ∧ (∀ sig e, req.signature = some sig →
        verifyWebhookSignature hmac secret req.rawBody sig = true →
        req.parsedBody = some e →
        isSuccessEventType e = true →
        (e.data.metadata = none
          ∨ (∃ md, e.data.metadata = some md ∧ isFalsy md.challengeId = true)
          ∨ (∃ md, e.data.metadata = some md
              ∧ isFalsy (orFalsy md.userId e.data.user_id) = true)) →
        (webhookPOST hmac secret req db).1.statusCode = 200
          ∧ (webhookPOST hmac secret req db).2 = db)
    ∧ (∀ sig e, req.signature = some sig →
        verifyWebhookSignature hmac secret req.rawBody sig = true →
        req.parsedBody = some e →
        isFailedEventType e = true →
        e.data.session_id = none →
        (webhookPOST hmac secret req db).1.statusCode = 200
          ∧ (webhookPOST hmac secret req db).2 = db)
    ∧ (∀ sig e, req.signature = some sig →
        verifyWebhookSignature hmac secret req.rawBody sig = true →
        req.parsedBody = some e →
        isSuccessEventType e = false →
        isFailedEventType e = false →
        (webhookPOST hmac secret req db).1.statusCode = 200
          ∧ (webhookPOST hmac secret req db).2 = db) := by
  refine ⟨?_, ?_, ?_, ?_, ?_, ?_, ?_⟩
  · unfold webhookPOST webhookStatusClassification
    cases hsig : req.signature with
    | none => rfl
    | some sig =>
      dsimp only
      by_cases hv : verifyWebhookSignature hmac secret req.rawBody sig = true
      · rw [if_pos hv, if_pos hv]
        cases hbody : req.parsedBody with
        | none => rfl
        | some e =>
          dsimp only
          split <;> rfl
      · rw [if_neg hv, if_neg hv]
        rfl
  · unfold webhookPOST
    cases hsig : req.signature with
    | none =>
      intro _
      rfl
    | some sig =>
      dsimp only
      by_cases hv : verifyWebhookSignature hmac secret req.rawBody sig = true
      · rw [if_pos hv]
        cases hbody : req.parsedBody with
        | none =>
          intro _
          rfl
        | some e =>
          dsimp only
          split <;> (intro h; exact absurd rfl h)
      · rw [if_neg hv]
        intro _
        rfl
  · intro sig e md cid hsig hver hbody hsucc hmd hcid hch
    unfold webhookPOST
    rw [hsig]
    dsimp only
    rw [if_pos hver, hbody]
    dsimp only
    simp only [isSuccessEventType, Bool.or_eq_true, beq_iff_eq] at hsucc
    rcases hsucc with (h | h) | h <;>
      rw [h] <;>
      exact ⟨rfl, handlePaymentSuccess_unmatched e.data db md cid hmd hcid hch⟩
  · intro sig e sid hsig hver hbody hfailed hsid hfind
    unfold webhookPOST
    rw [hsig]
    dsimp only
    rw [if_pos hver, hbody]
    dsimp only
    simp only [isFailedEventType, Bool.or_eq_true, beq_iff_eq] at hfailed
    rcases hfailed with h | h <;>
      rw [h] <;>
      exact ⟨rfl, handlePaymentFailed_unmatched e.data db sid hsid hfind⟩
  · intro sig e hsig hver hbody hsucc hmiss
    unfold webhookPOST
    rw [hsig]
    dsimp only
    rw [if_pos hver, hbody]
    dsimp only
    simp only [isSuccessEventType, Bool.or_eq_true, beq_iff_eq] at hsucc
    rcases hsucc with (h | h) | h <;>
      rw [h] <;>
      exact ⟨rfl, handlePaymentSuccess_missing_fields e.data db hmiss⟩
  · intro sig e hsig hver hbody hfailed hsid
    unfold webhookPOST
    rw [hsig]
    dsimp only
    rw [if_pos hver, hbody]
    dsimp only
    simp only [isFailedEventType, Bool.or_eq_true, beq_iff_eq] at hfailed
    rcases hfailed with h | h <;>
      rw [h] <;>
      exact ⟨rfl, handlePaymentFailed_no_session e.data db hsid⟩
  · intro sig e hsig hver hbody hsucc hfail
    rw [webhookPOST_unrecognized hmac secret req db sig e hsig hver hbody hsucc hfail]
    exact ⟨rfl, rfl⟩

/-- Counterexample to C4 as stated: an authentic request whose body is
malformed JSON is answered 500, not 400. -/
theorem C4_counterexample :
    (webhookPOST hmacConst (some ("whsec")) sampleMalformedReq sampleDb).1.statusCode = 500
    ∧ (webhookPOST hmacConst (some ("whsec")) sampleMalformedReq sampleDb).1.statusCode ≠ 400 :=
  ⟨by decide, by decide⟩

/-- Witness for C4 (amended): an authentic, well-formed success event
matching no challenge row is acknowledged 200 with no mutation. -/
theorem C4_response_classification_witness :
    (webhookPOST hmacConst (some ("whsec")) sampleUnmatchedReq sampleDb).1.statusCode = 200
    ∧ (webhookPOST hmacConst (some ("whsec")) sampleUnmatchedReq sampleDb).2 = sampleDb :=
  (C4_response_classification hmacConst (some ("whsec")) sampleUnmatchedReq sampleDb).2.2.1
    "t=1,v1=ab" sampleUnmatchedEvent
    { challengeId := some ("ghost"), userId := some ("u1") } "ghost"
    rfl (by decide) rfl (by decide) rfl rfl (by decide)

/-! ## Preservation of the funded-active invariant -/

theorem dbInvariant_setActive (cid : String) (db : DB)
    (hdb : ∀ c ∈ db.challenges, challengeInvariant c) :
    dbInvariant (updateChallenge cid
      (fun c => { c with isFunded := true, status := ChallengeStatus.ACTIVE }) db) := by
  intro c hc
  unfold updateChallenge at hc
  dsimp only at hc
  rcases List.mem_map.1 hc with ⟨c0, hc0, hceq⟩
  by_cases h : c0.id = cid
  · rw [if_pos h] at hceq
    rw [← hceq]
    unfold challengeInvariant
    simp
  · rw [if_neg h] at hceq
    rw [← hceq]
    exact hdb c0 hc0

theorem dbInvariant_handlePaymentSuccess (data : EventData) (db : DB)
    (hdb : dbInvariant db) : dbInvariant (handlePaymentSuccess data db) := by
  unfold handlePaymentSuccess successSteps
  cases hmd : data.metadata with
  | none => exact hdb
  | some md =>
    dsimp only
    by_cases h1 : isFalsy md.challengeId = true
    · rw [if_pos h1]
      exact hdb
    · rw [if_neg h1]
      by_cases h2 : isFalsy (orFalsy md.userId data.user_id) = true
      · rw [if_pos h2]
        exact hdb
      · rw [if_neg h2]
        cases hch : findChallenge db (md.challengeId.getD "") with
        | none => exact hdb
        | some challenge =>
          dsimp only
          rw [getLastD_three]
          unfold updateChallenge createPayment
          dsimp only
          rw [map_update_update (md.challengeId.getD "")
            (fun c => { c with status := ChallengeStatus.FUNDED, isFunded := true })
            (fun c => { c with status := ChallengeStatus.ACTIVE })
            (fun c => rfl)]
          intro c hc
          rcases List.mem_map.1 hc with ⟨c0, hc0, hceq⟩
          by_cases h : c0.id = md.challengeId.getD ""
          · rw [if_pos h] at hceq
            rw [← hceq]
            unfold challengeInvariant
            simp
          · rw [if_neg h] at hceq
            rw [← hceq]
            exact hdb c0 hc0

theorem challenges_handlePaymentFailed (data : EventData) (db : DB) :
    (handlePaymentFailed data db).challenges = db.challenges := by
  unfold handlePaymentFailed createPayment
  cases data.session_id with
  | none => rfl
  | some sid =>
    dsimp only
    cases db.paymentSessions.find? (fun ps => ps.sessionId == sid) with
    | none => rfl
    | some ps => rfl

theorem dbInvariant_webhookPOST (hmac : String → String → String) (secret : Option String)
    (req : WebhookRequest) (db : DB) (hdb : dbInvariant db) :
    dbInvariant (webhookPOST hmac secret req db).2 := by
  unfold webhookPOST
  cases req.signature with
  | none => exact hdb
  | some sig =>
    dsimp only
    by_cases hv : verifyWebhookSignature hmac secret req.rawBody sig = true
    · rw [if_pos hv]
      cases req.parsedBody with
      | none => exact hdb
      | some event =>
        dsimp only
        split
        all_goals
          first
          | exact dbInvariant_handlePaymentSuccess event.data db hdb
          | (intro c hc
             rw [challenges_handlePaymentFailed] at hc
             exact hdb c hc)
          | exact hdb
    · rw [if_neg hv]
      exact hdb

theorem dbInvariant_chargePOST (a w : Option String) (acc : Bool) (pr : Option String)
    (cid : Option String) (db : DB) (hdb : dbInvariant db) :
    dbInvariant (chargePOST a w acc pr cid db).2 := by
  unfold chargePOST
  cases a with
  | none => exact hdb
  | some uid =>
    dsimp only
    by_cases h1 : isFalsy cid = true
    · rw [if_pos h1]
      exact hdb
    · rw [if_neg h1]
      cases hfc : findChallenge db (cid.getD "") with
      | none => exact hdb
      | some challenge =>
        dsimp only
        by_cases h2 : challenge.creatorId ≠ uid
        · rw [if_pos h2]
          exact hdb
        · rw [if_neg h2]
          by_cases h3 : challenge.isFunded = true
          · rw [if_pos h3]
            exact hdb
          · rw [if_neg h3]
            cases w with
            | none => exact hdb
            | some wuid =>
              dsimp only
              by_cases h4 : challenge.rewardType = RewardType.SUBSCRIPTION
              · rw [if_pos h4]
                by_cases h5 : acc = false
                · rw [if_pos h5]
                  exact hdb
                · rw [if_neg h5]
                  exact dbInvariant_setActive challenge.id _ (fun c hc => hdb c hc)
              · rw [if_neg h4]
                cases pr with
                | none => exact hdb
                | some pid =>
                  dsimp only
                  by_cases h6 : challenge.buyoutFeePaid = true
                  · rw [if_pos h6]
                    intro c hc
                    exact hdb c hc
                  · rw [if_neg h6]
                    intro c hc
                    exact hdb c hc

theorem dbInvariant_chargeGETConfirm (ws uid pid : String) (db : DB)
    (hdb : dbInvariant db) :
    dbInvariant (chargeGETConfirm ws uid pid db) := by
  unfold chargeGETConfirm
  cases hfind : db.payments.find?
      (fun p => p.stripePaymentIntentId == some pid && p.userId == uid) with
  | none => exact hdb
  | some lp =>
    dsimp only
    by_cases hcond : ws = "completed" ∧ lp.status = PaymentStatus.PENDING
    · rw [if_pos hcond]
      exact dbInvariant_setActive lp.challengeId _ (fun c hc => hdb c hc)
    · rw [if_neg hcond]
      exact hdb

theorem dbInvariant_createChallengeRow (user : UserInfo) (nid : String)
    (body : ChallengeBody) (db : DB) (hdb : dbInvariant db) :
    dbInvariant (createChallengeRow user nid body db) := by
  intro c hc
  unfold createChallengeRow at hc
  dsimp only at hc
  rcases List.mem_append.1 hc with h | h
  · exact hdb c h
  · rw [List.mem_singleton] at h
    rw [h]
    unfold challengeInvariant
    simp

theorem dbInvariant_challengesPOST (a : Option UserInfo) (nid : String)
    (body : ChallengeBody) (db : DB) (hdb : dbInvariant db) :
    dbInvariant (challengesPOST a nid body db).2 := by
  unfold challengesPOST
  cases a with
  | none => exact hdb
  | some user =>
    dsimp only
    repeat' split
    all_goals
      first
      | exact hdb
      | exact dbInvariant_createChallengeRow user nid body db hdb

theorem dbInvariant_challengeDELETE (a : Option String) (cid : String) (db : DB)
    (hdb : dbInvariant db) :
    dbInvariant (challengeDELETE a cid db).2 := by
  unfold challengeDELETE
  cases a with
  | none => exact hdb
  | some uid =>
    dsimp only
    cases hfc : findChallenge db cid with
    | none => exact hdb
    | some challenge =>
      dsimp only
      by_cases h2 : challenge.creatorId ≠ uid
      · rw [if_pos h2]
        exact hdb
      · rw [if_neg h2]
        by_cases h3 : challenge.status ≠ ChallengeStatus.DRAFT
        · rw [if_pos h3]
          exact hdb
        · rw [if_neg h3]
          intro c hc
          exact hdb c (List.mem_of_mem_filter hc)

theorem dbInvariant_processApprovedSubmission (res : PayoutResult) (sid : String)
    (db : DB) (hdb : dbInvariant db) :
    dbInvariant (processApprovedSubmission res sid db).2 := by
  unfold processApprovedSubmission
  cases hs : db.submissions.find? (fun s => s.id == sid) with
  | none => exact hdb
  | some submission =>
    dsimp only
    cases hc : findChallenge db submission.challengeId with
    | none => exact hdb
    | some challenge =>
      dsimp only
      by_cases hres : res.success = true
      · rw [if_pos hres]
        intro c hcm
        exact hdb c hcm
      · rw [if_neg hres]
        exact hdb

/-- Claim C3 (amended): every operation of the system leaves the
database with the funded-active invariant at its final state — a
challenge row is funded exactly when ACTIVE after any webhook delivery,
charge, synchronous confirmation, creation, deletion or payout; the
amendment is that the webhook success path reaches this final state
through an observable intermediate commit in which the challenge is
isFunded with status FUNDED, so the two fields are not set atomically
together there. -/
theorem C3_funded_active_invariant (op : Op) (db : DB) (hdb : dbInvariant db) :
    dbInvariant (applyOp op db) := by
  cases op with
  | webhook h s r => exact dbInvariant_webhookPOST h s r db hdb
  | charge a w acc pr cid => exact dbInvariant_chargePOST a w acc pr cid db hdb
  | confirm ws uid pid => exact dbInvariant_chargeGETConfirm ws uid pid db hdb
  | create a nid body => exact dbInvariant_challengesPOST a nid body db hdb
  | delete a cid => exact dbInvariant_challengeDELETE a cid db hdb
  | payout res sid => exact dbInvariant_processApprovedSubmission res sid db hdb

/-- Counterexample to C3 as stated: inside the webhook success path the
database passes through a committed state in which the challenge is
funded but its status is FUNDED, not ACTIVE. -/
theorem C3_counterexample :
    ((successSteps sampleData sampleDb).any
        (fun d => d.challenges.any
          (fun c => c.isFunded && !(c.status == ChallengeStatus.ACTIVE)))) = true := by
  decide

/-- Witness for C3 (amended): the synchronous confirmation operation
preserves the invariant on the sample database. -/
theorem C3_funded_active_invariant_witness :
    dbInvariant (applyOp (Op.confirm "completed" "u1" "pay_1") sampleDb) :=
  C3_funded_active_invariant (Op.confirm "completed" "u1" "pay_1") sampleDb (by decide)

end ChallengeHub
